import Mathlib

/-!
Verification development for the settlement and inventory-reconciliation core
of the dujiao-next digital-goods storefront.  The Go sources are shallowly
embedded: pure functions become Lean functions, machine integers become
Nat/Int with explicit reductions modulo 2^32 where overflow matters, and
fallible operations return Option/Except.
-/

set_option maxRecDepth 4096

/-! ## Generic helpers: 32-bit arithmetic, MD5, UTF-8, hex -/

/-- Combine two naturals bit by bit (32 bits of fuel), little-endian. -/
def bitsCombine (f : Nat → Nat → Nat) : Nat → Nat → Nat → Nat
  | 0, _, _ => 0
  | fuel + 1, x, y => f (x % 2) (y % 2) + 2 * bitsCombine f fuel (x / 2) (y / 2)

def land32 (x y : Nat) : Nat := bitsCombine (fun a b => a * b) 32 x y

def lor32 (x y : Nat) : Nat := bitsCombine (fun a b => a + b - a * b) 32 x y

def lxor32 (x y : Nat) : Nat := bitsCombine (fun a b => (a + b) % 2) 32 x y

def lnot32 (x : Nat) : Nat := 4294967295 - x % 4294967296

/-- Rotate a 32-bit value left by `s` bits. -/
def rotl32 (x s : Nat) : Nat :=
  (x % 4294967296) * 2 ^ s % 4294967296 + x % 4294967296 / 2 ^ (32 - s)

/-- The 64 MD5 sine-derived round constants. -/
def md5K : List Nat :=
  [0xd76aa478, 0xe8c7b756, 0x242070db, 0xc1bdceee,
   0xf57c0faf, 0x4787c62a, 0xa8304613, 0xfd469501,
   0x698098d8, 0x8b44f7af, 0xffff5bb1, 0x895cd7be,
   0x6b901122, 0xfd987193, 0xa679438e, 0x49b40821,
   0xf61e2562, 0xc040b340, 0x265e5a51, 0xe9b6c7aa,
   0xd62f105d, 0x02441453, 0xd8a1e681, 0xe7d3fbc8,
   0x21e1cde6, 0xc33707d6, 0xf4d50d87, 0x455a14ed,
   0xa9e3e905, 0xfcefa3f8, 0x676f02d9, 0x8d2a4c8a,
   0xfffa3942, 0x8771f681, 0x6d9d6122, 0xfde5380c,
   0xa4beea44, 0x4bdecfa9, 0xf6bb4b60, 0xbebfbc70,
   0x289b7ec6, 0xeaa127fa, 0xd4ef3085, 0x04881d05,
   0xd9d4d039, 0xe6db99e5, 0x1fa27cf8, 0xc4ac5665,
   0xf4292244, 0x432aff97, 0xab9423a7, 0xfc93a039,
   0x655b59c3, 0x8f0ccc92, 0xffeff47d, 0x85845dd1,
   0x6fa87e4f, 0xfe2ce6e0, 0xa3014314, 0x4e0811a1,
   0xf7537e82, 0xbd3af235, 0x2ad7d2bb, 0xeb86d391]

/-- The 64 MD5 per-round left-rotation amounts. -/
def md5S : List Nat :=
  [7, 12, 17, 22, 7, 12, 17, 22, 7, 12, 17, 22, 7, 12, 17, 22,
   5, 9, 14, 20, 5, 9, 14, 20, 5, 9, 14, 20, 5, 9, 14, 20,
   4, 11, 16, 23, 4, 11, 16, 23, 4, 11, 16, 23, 4, 11, 16, 23,
   6, 10, 15, 21, 6, 10, 15, 21, 6, 10, 15, 21, 6, 10, 15, 21]

/-- MD5 nonlinear function for round `i` on registers `b c d`. -/
def md5F (i b c d : Nat) : Nat :=
  if i < 16 then lor32 (land32 b c) (land32 (lnot32 b) d)
  else if i < 32 then lor32 (land32 d b) (land32 (lnot32 d) c)
  else if i < 48 then lxor32 b (lxor32 c d)
  else lxor32 c (lor32 b (lnot32 d))

/-- Message-word index used in MD5 round `i`. -/
def md5G (i : Nat) : Nat :=
  if i < 16 then i
  else if i < 32 then (5 * i + 1) % 16
  else if i < 48 then (3 * i + 5) % 16
  else (7 * i) % 16

/-- One MD5 round applied to the register quadruple. -/
def md5Round (m : List Nat) (i : Nat) (st : Nat × Nat × Nat × Nat) :
    Nat × Nat × Nat × Nat :=
  match st with
  | (a, b, c, d) =>
    let f := (md5F i b c d + a + (md5K.getD i 0) + (m.getD (md5G i) 0)) % 4294967296
    (d, (b + rotl32 f (md5S.getD i 0)) % 4294967296, b, c)

/-- Process one 16-word block, updating the running digest state. -/
def md5Block (h : Nat × Nat × Nat × Nat) (m : List Nat) : Nat × Nat × Nat × Nat :=
  match h, (List.range 64).foldl (fun st i => md5Round m i st) h with
  | (h0, h1, h2, h3), (a, b, c, d) =>
    ((h0 + a) % 4294967296, (h1 + b) % 4294967296,
     (h2 + c) % 4294967296, (h3 + d) % 4294967296)

/-- MD5 padding: append 0x80, zeros to 56 mod 64, then the 64-bit LE bit length. -/
def md5Pad (msg : List Nat) : List Nat :=
  let len := msg.length
  let zeros := (119 - len % 64) % 64
  msg ++ [128] ++ List.replicate zeros 0 ++
    (List.range 8).map (fun i => len * 8 / 256 ^ i % 256)

/-- Group a byte list into little-endian 32-bit words. -/
def md5Words : List Nat → List Nat
  | b0 :: b1 :: b2 :: b3 :: rest =>
      (b0 + 256 * (b1 + 256 * (b2 + 256 * b3))) :: md5Words rest
  | _ => []

/-- Group a word list into 16-word blocks. -/
def md5Chunks : List Nat → List (List Nat)
  | w0 :: w1 :: w2 :: w3 :: w4 :: w5 :: w6 :: w7 ::
    w8 :: w9 :: w10 :: w11 :: w12 :: w13 :: w14 :: w15 :: rest =>
      [w0, w1, w2, w3, w4, w5, w6, w7, w8, w9, w10, w11, w12, w13, w14, w15] ::
        md5Chunks rest
  | _ => []

/-- Serialize one 32-bit word as four little-endian bytes. -/
def md5WordLE (w : Nat) : List Nat :=
  [w % 256, w / 256 % 256, w / 65536 % 256, w / 16777216 % 256]

/-- Full MD5 digest of a byte list, as 16 bytes. -/
def md5Digest (msg : List Nat) : List Nat :=
  match (md5Chunks (md5Words (md5Pad msg))).foldl md5Block
    (0x67452301, 0xefcdab89, 0x98badcfe, 0x10325476) with
  | (a, b, c, d) => md5WordLE a ++ md5WordLE b ++ md5WordLE c ++ md5WordLE d

/-- Lowercase hexadecimal digit for a value below 16. -/
def hexDigit (n : Nat) : Char :=
  if n < 10 then Char.ofNat (48 + n) else Char.ofNat (87 + n)

/-- Two lowercase hex characters for one byte. -/
def hexOfByte (b : Nat) : List Char :=
  [hexDigit (b / 16 % 16), hexDigit (b % 16)]

/-- UTF-8 encoding of a single Unicode code point. -/
def charUtf8Bytes (n : Nat) : List Nat :=
  if n < 128 then [n]
  else if n < 2048 then [192 + n / 64, 128 + n % 64]
  else if n < 65536 then [224 + n / 4096, 128 + n / 64 % 64, 128 + n % 64]
  else [240 + n / 262144, 128 + n / 4096 % 64, 128 + n / 64 % 64, 128 + n % 64]

/-- UTF-8 byte sequence of a string. -/
def strBytes (s : String) : List Nat :=
  (s.data.map (fun c => charUtf8Bytes c.toNat)).flatten

/-- Lowercase hex MD5 of a string, as produced by crypto/md5 plus hex.EncodeToString. -/
def md5Hex (s : String) : String :=
  String.mk ((md5Digest (strBytes s)).map hexOfByte).flatten

/-- Model of strings.ToLower restricted to the simple per-character mapping. -/
def toLowerStr (s : String) : String :=
  String.mk (s.data.map Char.toLower)

/-- Model of strings.EqualFold by comparing the case-folded strings. -/
def eqFold (a b : String) : Bool :=
  toLowerStr a == toLowerStr b

/-- The ASCII whitespace characters recognised by unicode.IsSpace (the inputs
modelled here contain no non-ASCII whitespace). -/
def isGoSpace (c : Char) : Bool :=
  c == ' ' || c == '\t' || c == '\n' || c == '\r' ||
    c == Char.ofNat 11 || c == Char.ofNat 12

/-- Model of strings.TrimSpace. -/
def goTrim (s : String) : String :=
  String.mk (((s.data.dropWhile isGoSpace).reverse.dropWhile isGoSpace).reverse)

/-- Whether the string contains the given character. -/
def containsCh (s : String) (c : Char) : Bool :=
  s.data.contains c

/-- Split a character list at every occurrence of the separator, the
behaviour of strings.Split with a one-character separator. -/
def splitCh (sep : Char) : List Char → List (List Char)
  | [] => [[]]
  | c :: rest =>
    match splitCh sep rest with
    | [] => [[]]
    | g :: gs => if c == sep then [] :: g :: gs else (c :: g) :: gs

/-- Split at the first equals sign, the behaviour of strings.SplitN with
separator "=" and limit 2: none when the string has no equals sign. -/
def splitFirstEq : List Char → Option (List Char × List Char)
  | [] => none
  | c :: rest =>
    if c == '=' then some ([], rest)
    else
      match splitFirstEq rest with
      | none => none
      | some (k, v) => some (c :: k, v)

/-- Bytewise-ascending comparison of strings, the order used by Go string
comparison (code-point order coincides with UTF-8 byte order). -/
def ltChars : List Char → List Char → Bool
  | [], [] => false
  | [], _ :: _ => true
  | _ :: _, [] => false
  | a :: as, b :: bs =>
    if a.toNat < b.toNat then true
    else if b.toNat < a.toNat then false
    else ltChars as bs

/-- Insert a string into an ascending list, preserving order. -/
def insertSorted (x : String) : List String → List String
  | [] => [x]
  | y :: ys => if ltChars y.data x.data then y :: insertSorted x ys else x :: y :: ys

/-- Ascending lexicographic sort, the behaviour of Go sort.Strings. -/
def sortStrings (l : List String) : List String :=
  l.foldr insertSorted []

/-! ## Canonical statuses (internal/constants) -/

/-- The canonical payment status enumeration of constants.PaymentStatus*. -/
inductive PaymentStatus where
  | initiated
  | pending
  | success
  | failed
  | expired
  deriving DecidableEq

/-- The canonical wallet-recharge status enumeration of
constants.WalletRechargeStatus*. -/
inductive WalletRechargeStatus where
  | pending
  | success
  | failed
  | expired
  deriving DecidableEq

/-! ## Gateway adapter, Provider A (internal/payment/tokenpay/tokenpay.go) -/

namespace Tokenpay

/-- JSON values as they occur in a decoded tokenpay payload map. -/
inductive JsonVal where
  | str (s : String)
  | int (n : Int)
  | bool (b : Bool)
  | null
  deriving DecidableEq

/-- A decoded JSON payload map: association list with the uniqueness of Go
map keys assumed where a theorem needs it. -/
abbrev Payload := List (String × JsonVal)

/-- Embeds isEmptyValue: nil and blank strings count as empty. -/
def isEmptyValue : JsonVal → Bool
  | .null => true
  | .str s => goTrim s == ""
  | _ => false

/-- Embeds normalizeSignValue for the payload value shapes modelled here. -/
def normalizeSignValue : JsonVal → String
  | .null => ""
  | .str s => goTrim s
  | .int n => toString n
  | .bool b => if b then "true" else "false"

/-- Map-style lookup of a key in the payload. -/
def lookupVal (payload : Payload) (key : String) : JsonVal :=
  ((payload.find? (fun kv => kv.1 == key)).map (fun kv => kv.2)).getD .null

/-- Embeds SignPayload: collect keys that are neither the signature field nor
empty-valued, sort them ascending, join key=value pairs with ampersands,
append the trimmed secret, and take the lowercase hex MD5. -/
def SignPayload (payload : Payload) (notifySecret : String) : String :=
  let keys := (payload.filter (fun kv =>
      !(eqFold (goTrim kv.1) "Signature") && !(isEmptyValue kv.2))).map (fun kv => kv.1)
  let sorted := sortStrings keys
  let parts := sorted.map (fun key => key ++ "=" ++ normalizeSignValue (lookupVal payload key))
  toLowerStr (md5Hex (String.intercalate "&" parts ++ goTrim notifySecret))

/-- The signing algorithm exactly as the specification words it, with the raw
(untrimmed) shared secret appended.  Compared against SignPayload. -/
def signPayloadSpecRaw (payload : Payload) (secret : String) : String :=
  md5Hex (String.intercalate "&"
    ((sortStrings ((payload.filter (fun kv =>
        !(eqFold (goTrim kv.1) "Signature") && !(isEmptyValue kv.2))).map (fun kv => kv.1))).map
      (fun key => key ++ "=" ++ normalizeSignValue (lookupVal payload key))) ++ secret)

/-- The signing algorithm as the specification words it, amended so the shared
secret is trimmed before being appended. -/
def signPayloadSpecTrim (payload : Payload) (secret : String) : String :=
  signPayloadSpecRaw payload (goTrim secret)

/-- Embeds ToPaymentStatus: 1 is success, 2 is expired, everything else pending. -/
def ToPaymentStatus (status : Int) : PaymentStatus :=
  if status = 1 then .success
  else if status = 2 then .expired
  else .pending

/-- Embeds the decimal branch of strconv.ParseUint with bitSize 64: digits
only, nonempty, no sign, overflow rejected. -/
def parseUintDec (s : String) : Option Nat :=
  if s.data = [] then none
  else if s.data.all (fun c => c.isDigit) then
    let n := s.data.foldl (fun acc c => acc * 10 + (c.toNat - 48)) 0
    if n < 18446744073709551616 then some n else none
  else none

/-- Embeds the key-scanning loop of ParsePassThroughPaymentID: the first part
splitting into two around an equals sign whose trimmed key folds equal to
payment_id replaces the raw candidate with its trimmed value. -/
def scanPaymentID : List (List Char) → String → String
  | [], raw => raw
  | part :: rest, raw =>
    match splitFirstEq part with
    | some (k, v) =>
      if eqFold (goTrim (String.mk k)) "payment_id" then goTrim (String.mk v)
      else scanPaymentID rest raw
    | none => scanPaymentID rest raw

/-- Embeds ParsePassThroughPaymentID. -/
def ParsePassThroughPaymentID (passThrough : String) : Nat :=
  let raw := goTrim passThrough
  if raw = "" then 0
  else
    let raw := if containsCh raw '=' then scanPaymentID (splitCh '&' raw.data) raw else raw
    match parseUintDec raw with
    | none => 0
    | some n => if n = 0 then 0 else n

/-- Value of the first case-insensitive payment_id pair of a part, the way
the claim describes the lookup. -/
def paymentIDValue? (part : List Char) : Option String :=
  match splitFirstEq part with
  | some (k, v) =>
    if eqFold (goTrim (String.mk k)) "payment_id" then some (String.mk v) else none
  | none => none

/-- The passthrough parser as the claim describes it: the candidate is the
value of the payment_id key when the trimmed string contains an equals sign
and such a key exists, otherwise the whole trimmed string; unparseable or
zero candidates give zero. -/
def parsePassThroughSpec (s : String) : Nat :=
  let t := goTrim s
  if t = "" then 0
  else
    let cand :=
      if containsCh t '=' then
        match (splitCh '&' t.data).findSome? paymentIDValue? with
        | some v => goTrim v
        | none => t
      else t
    match parseUintDec cand with
    | some n => n
    | none => 0

/-- Embeds the tokenpay DefaultCurrency constant. -/
def DefaultCurrency : String := "USDT"

/-- Embeds the tokenpay Config fields consulted by ValidateConfig and
callback verification. -/
structure Config where
  gatewayURL : String
  notifySecret : String
  currency : String
  deriving DecidableEq

/-- Embeds ValidateConfig: gateway URL, notify secret and currency must be
nonblank. -/
def ValidateConfig (cfg : Config) : Bool :=
  !(goTrim cfg.gatewayURL == "") && !(goTrim cfg.notifySecret == "") &&
    !(goTrim cfg.currency == "")

/-- Embeds a parsed callback body as the handler consumes it. -/
structure CallbackData where
  raw : Payload
  signature : String
  tokenOrderID : String
  outOrderID : String
  status : Int
  passThroughInfo : String

/-- Embeds VerifyCallback as a boolean: a blank secret is config-invalid and
never verifies; otherwise the recomputed signature must fold-equal the
trimmed carried signature. -/
def VerifyCallback (data : CallbackData) (notifySecret : String) : Bool :=
  if goTrim notifySecret == "" then false
  else eqFold (SignPayload data.raw notifySecret) (goTrim data.signature)

end Tokenpay

/-! ## Public callback handler (HandleTokenPayCallback) -/

namespace Public

/-- The Payment fields the handler consults. -/
structure PaymentRec where
  id : Nat
  channelID : Nat
  deriving DecidableEq

/-- The payment-channel fields the handler consults; config is the result of
tokenpay.ParseConfig on the channel's config JSON, none when parsing fails. -/
structure ChannelRec where
  providerType : String
  config : Option Tokenpay.Config

/-- The provider acknowledgement tokens written into the HTTP response body. -/
inductive CallbackToken where
  | success
  | fail
  deriving DecidableEq

/-- Embeds the payment-resolution step of HandleTokenPayCallback: a positive
passthrough payment id is looked up first; when that lookup yields nothing
the handler falls back to the latest Payment matching the provider order
reference. -/
def resolvePayment (passThroughInfo tokenOrderID : String)
    (byID : Nat → Option PaymentRec) (latestByRef : String → Option PaymentRec) :
    Option PaymentRec :=
  let paymentID := Tokenpay.ParsePassThroughPaymentID passThroughInfo
  match (if paymentID > 0 then byID paymentID else none) with
  | some payment => some payment
  | none => latestByRef tokenOrderID

/-- Embeds HandleTokenPayCallback.  The repositories and the payment service
are oracles; the returned boolean is the handler's matched flag and the token
is what, if anything, is written to the response body.  A none from
handleCallback stands for any service error. -/
def HandleTokenPayCallback (parsed : Option Tokenpay.CallbackData)
    (byID : Nat → Option PaymentRec) (latestByRef : String → Option PaymentRec)
    (channelOf : Nat → Option ChannelRec)
    (handleCallback : Nat → PaymentStatus → Option PaymentRec) :
    Bool × Option CallbackToken :=
  match parsed with
  | none => (false, none)
  | some data =>
    if goTrim data.signature == "" || goTrim data.outOrderID == "" ||
        goTrim data.tokenOrderID == "" then
      (false, none)
    else
      match resolvePayment data.passThroughInfo data.tokenOrderID byID latestByRef with
      | none => (true, some .fail)
      | some payment =>
        match channelOf payment.channelID with
        | none => (true, some .fail)
        | some channel =>
          if !(toLowerStr (goTrim channel.providerType) == "tokenpay") then
            (true, some .fail)
          else
            match channel.config with
            | none => (true, some .fail)
            | some cfg0 =>
              let cfg := if goTrim cfg0.currency == "" then
                  { cfg0 with currency := Tokenpay.DefaultCurrency } else cfg0
              if !(Tokenpay.ValidateConfig cfg) then (true, some .fail)
              else if !(Tokenpay.VerifyCallback data cfg.notifySecret) then
                (true, some .fail)
              else
                match handleCallback payment.id (Tokenpay.ToPaymentStatus data.status) with
                | none => (true, some .fail)
                | some _ => (true, some .success)

end Public

/-! ## Payment service: wallet-recharge expiry
(internal/service/payment_service_recharge_expire.go) -/

namespace Service

/-- The Payment fields read or written by the expiry path. -/
structure Payment where
  id : Nat
  orderID : Nat
  status : PaymentStatus
  paidAt : Option Nat
  expiredAt : Option Nat
  updatedAt : Nat
  deriving DecidableEq

/-- The WalletRechargeOrder fields read or written by the expiry path. -/
structure WalletRechargeOrder where
  paymentID : Nat
  status : WalletRechargeStatus
  paidAt : Option Nat
  updatedAt : Nat
  deriving DecidableEq

/-- The error values the expiry path can surface. -/
inductive ExpireError where
  | paymentInvalid
  | paymentNotFound
  | walletRechargeNotFound
  | paymentUpdateFailed
  deriving DecidableEq

/-- Embeds canExpireWalletRechargePayment.  The Go nil-pointer guards are
vacuous here because the embedding passes values. -/
def canExpireWalletRechargePayment (payment : Payment)
    (recharge : WalletRechargeOrder) : Bool :=
  if recharge.status != .pending then false
  else if payment.status == .success || recharge.status == .success then false
  else if payment.status == .failed || recharge.status == .failed then false
  else if payment.status == .expired || recharge.status == .expired then false
  else payment.status == .initiated || payment.status == .pending

/-- Embeds ExpireWalletRechargePayment.  The stored rows are passed in place
of the repositories (none meaning not found) and the result carries the
stored payment, the stored recharge order and the returned payment. -/
def ExpireWalletRechargePayment (now : Nat) (paymentID : Nat)
    (payment : Option Payment) (recharge : Option WalletRechargeOrder) :
    Except ExpireError (Payment × Option WalletRechargeOrder × Payment) :=
  if paymentID = 0 then .error .paymentInvalid
  else
    match payment with
    | none => .error .paymentNotFound
    | some payment =>
      if payment.orderID ≠ 0 then .ok (payment, recharge, payment)
      else
        match recharge with
        | none => .error .walletRechargeNotFound
        | some recharge =>
          if !(canExpireWalletRechargePayment payment recharge) then
            .ok (payment, some recharge, payment)
          else
            let payment' := { payment with
              status := PaymentStatus.expired, expiredAt := some now, updatedAt := now }
            let recharge' := { recharge with
              status := WalletRechargeStatus.expired, updatedAt := now }
            .ok (payment', some recharge', payment')

end Service

/-! ## Spec-modelled components whose source is not in the excerpt -/

namespace Stripe

/-- Modelled from the spec: mapPaymentIntentStatus of the Provider B adapter
(internal/payment/stripe, source absent from the excerpt). Payment-intent
statuses succeeded/processing/canceled/requires-payment-method map to
canonical statuses and unrecognized codes default to Pending. -/
def mapPaymentIntentStatus (status : String) : PaymentStatus :=
  if status = "succeeded" then .success
  else if status = "processing" then .pending
  else if status = "canceled" then .failed
  else if status = "requires_payment_method" then .failed
  else .pending

end Stripe

namespace Service

/-- The Order fields the wallet checkout path reads and writes. -/
structure OrderRec where
  status : String
  totalAmount : Int
  walletPaidAmount : Int
  paidAt : Option Nat
  deriving DecidableEq

/-- The wallet-account balance. -/
structure WalletAccountRec where
  balance : Int
  deriving DecidableEq

/-- The Payment row fields asserted by the wallet checkout scenario. -/
structure PaymentRow where
  providerType : String
  channelType : String
  status : PaymentStatus
  amount : Int
  paidAt : Option Nat
  deriving DecidableEq

/-- The observable outcome of createPayment. -/
structure CreatePaymentOutcome where
  order : OrderRec
  account : WalletAccountRec
  paymentRow : Option PaymentRow
  gatewayCalled : Bool
  orderPaid : Bool
  walletPaidAmount : Int
  onlinePayAmount : Int
  deriving DecidableEq

/-- Modelled from the spec: createPayment of the Payment Orchestrator
(service source absent from the excerpt).  It computes the outstanding due,
debits the wallet up to min(balance, due) when asked to, and when the
remaining due is zero synthesizes a Success wallet-provider Payment with
paid-at set and marks the Order paid without any gateway call; otherwise it
creates a Pending payment for the remainder through the gateway. -/
def CreatePayment (now : Nat) (order : OrderRec) (account : WalletAccountRec)
    (useWalletBalance : Bool) (channelProvider : String) : CreatePaymentOutcome :=
  let due := order.totalAmount - order.walletPaidAmount
  let debit := if useWalletBalance then min account.balance due else 0
  let remaining := due - debit
  if remaining = 0 then
    { order := { order with
                 status := "paid"
                 walletPaidAmount := order.walletPaidAmount + debit
                 paidAt := some now }
      account := { balance := account.balance - debit }
      paymentRow := some { providerType := "wallet"
                           channelType := "balance"
                           status := .success
                           amount := debit
                           paidAt := some now }
      gatewayCalled := false
      orderPaid := true
      walletPaidAmount := debit
      onlinePayAmount := 0 }
  else
    { order := { order with walletPaidAmount := order.walletPaidAmount + debit }
      account := { balance := account.balance - debit }
      paymentRow := some { providerType := channelProvider
                           channelType := ""
                           status := .pending
                           amount := remaining
                           paidAt := none }
      gatewayCalled := true
      orderPaid := false
      walletPaidAmount := debit
      onlinePayAmount := remaining }

/-- The reserved default SKU code sentinel (models.DefaultSKUCode). -/
def defaultSKUCode : String := "default"

/-- The ProductSKU fields the stock reconciler reads and writes. -/
structure ProductSKU where
  id : Nat
  skuCode : String
  sortOrder : Int
  priceAmount : Int
  manualStockTotal : Int
  isActive : Bool
  autoStockAvailable : Nat
  autoStockLocked : Nat
  autoStockSold : Nat
  autoStockTotal : Nat
  deriving DecidableEq

/-- Strict (sortOrder, id) ordering on SKUs. -/
def skuLt (a b : ProductSKU) : Bool :=
  if a.sortOrder < b.sortOrder then true
  else if b.sortOrder < a.sortOrder then false
  else decide (a.id < b.id)

/-- Strict ordering on SKUs by identifier alone. -/
def skuIdLt (a b : ProductSKU) : Bool :=
  decide (a.id < b.id)

/-- The SKU of the running minimum under the given strict order, scanning
left to right. -/
def minSKUBy (lt : ProductSKU → ProductSKU → Bool) :
    ProductSKU → List ProductSKU → ProductSKU
  | x, [] => x
  | x, y :: ys => minSKUBy lt (if lt y x then y else x) ys

/-- Modelled from the spec and the repository test
TestSyncSingleProductSKU_MultipleRowsKeepsSingleActive: the target-selection
priority of syncSingleProductSKU — the currently active SKU with the lowest
id (the test demands the first-created active SKU even when another active
SKU has a smaller sortOrder), else the SKU bearing the reserved default code,
else the SKU with the lowest (sortOrder, id). -/
def chooseTarget (skus : List ProductSKU) : Option ProductSKU :=
  match skus.filter (fun s => s.isActive) with
  | a :: as => some (minSKUBy skuIdLt a as)
  | [] =>
    match skus.find? (fun s => s.skuCode == defaultSKUCode) with
    | some d => some d
    | none =>
      match skus with
      | [] => none
      | a :: as => some (minSKUBy skuLt a as)

/-- The target selection exactly as the specification words it: the active
SKU with the lowest (sortOrder, id), else the default-coded SKU, else the
SKU with the lowest (sortOrder, id).  Compared with chooseTarget. -/
def chooseTargetSpec (skus : List ProductSKU) : Option ProductSKU :=
  match skus.filter (fun s => s.isActive) with
  | a :: as => some (minSKUBy skuLt a as)
  | [] =>
    match skus.find? (fun s => s.skuCode == defaultSKUCode) with
    | some d => some d
    | none =>
      match skus with
      | [] => none
      | a :: as => some (minSKUBy skuLt a as)

/-- Modelled from the spec and the repository tests: syncSingleProductSKU
(service source absent from the excerpt) sets the target SKU's price, stock
and active flag and deactivates every other SKU of the product. -/
def syncSingleProductSKU (targetPrice targetStock : Int)
    (skus : List ProductSKU) : List ProductSKU :=
  match chooseTarget skus with
  | none => skus
  | some t =>
    skus.map (fun s =>
      if s.id == t.id then
        { s with
          priceAmount := targetPrice
          manualStockTotal := targetStock
          isActive := true }
      else { s with isActive := false })

/-- The synchroniser with the target chosen exactly as the specification
words it; compared with syncSingleProductSKU on the test fixture. -/
def syncSingleProductSKUSpec (targetPrice targetStock : Int)
    (skus : List ProductSKU) : List ProductSKU :=
  match chooseTargetSpec skus with
  | none => skus
  | some t =>
    skus.map (fun s =>
      if s.id == t.id then
        { s with
          priceAmount := targetPrice
          manualStockTotal := targetStock
          isActive := true }
      else { s with isActive := false })

/-- Inventory-unit ("card secret") statuses. -/
inductive CardStatus where
  | available
  | reserved
  | used
  deriving DecidableEq

/-- One row of the grouped count query: (productID, SKUID, status, count). -/
structure CountRow where
  productID : Nat
  skuID : Nat
  status : CardStatus
  total : Nat
  deriving DecidableEq

/-- Add a count under a key into an association list, merging duplicates. -/
def addCount : List ((Nat × CardStatus) × Nat) → (Nat × CardStatus) → Nat →
    List ((Nat × CardStatus) × Nat)
  | [], k, n => [(k, n)]
  | (k', m) :: rest, k, n =>
    if k' = k then (k', m + n) :: rest else (k', m) :: addCount rest k n

/-- Look a key up in the count association list, zero when absent. -/
def countsFor (counts : List ((Nat × CardStatus) × Nat)) (key : Nat × CardStatus) : Nat :=
  match counts with
  | [] => 0
  | (k, n) :: rest => if k = key then n else countsFor rest key

/-- Fold legacy rows (SKUID = 0) onto the default SKU id. -/
def remapSKU (defaultID skuID : Nat) : Nat :=
  if skuID = 0 then defaultID else skuID

/-- Accumulate the grouped count rows into a per-(SKU, status) table with
legacy rows folded onto the default SKU. -/
def buildCounts (defaultID : Nat) (rows : List CountRow) :
    List ((Nat × CardStatus) × Nat) :=
  rows.foldl (fun acc r => addCount acc (remapSKU defaultID r.skuID, r.status) r.total) []

/-- Modelled from the spec and the repository test
TestApplyAutoStockCounts_LegacyStockPrefersDefaultSKU: applyAutoStockCounts
for one product of the batch (service source absent from the excerpt).  The
grouped rows for the product are folded into a count table with legacy rows
attributed to the default-coded SKU; each SKU receives Available/Locked/Sold
from the table and Total as Available plus Locked (the stock test demands a
product total of 10 where Available+Locked+Sold is 11, and the SKU fixture of
TestDecorateProductStock_AutoSkipsInactiveSKUs pins per-SKU totals 3 = 2+1 and
120 = 100+20, ruling out Available+Sold; Used units are not counted into
Total), and the product aggregates are the sums across SKUs. -/
def applyAutoStockCounts (rows : List CountRow) (productID : Nat)
    (skus : List ProductSKU) : List ProductSKU × (Nat × Nat × Nat × Nat) :=
  let prows := rows.filter (fun r => r.productID == productID)
  let defaultID := ((skus.find? (fun s => s.skuCode == defaultSKUCode)).map
    (fun s => s.id)).getD 0
  let counts := buildCounts defaultID prows
  let skus' := skus.map (fun s =>
    let a := countsFor counts (s.id, .available)
    let l := countsFor counts (s.id, .reserved)
    let u := countsFor counts (s.id, .used)
    { s with
      autoStockAvailable := a
      autoStockLocked := l
      autoStockSold := u
      autoStockTotal := a + l })
  let agg := skus'.foldl (fun acc s =>
    (acc.1 + s.autoStockAvailable, acc.2.1 + s.autoStockLocked,
     acc.2.2.1 + s.autoStockSold, acc.2.2.2 + s.autoStockTotal)) (0, 0, 0, 0)
  (skus', agg)

/-- The stock aggregation with Total computed exactly as the specification
words it, as Available + Locked + Sold; compared with applyAutoStockCounts
on the test fixture. -/
def applyAutoStockCountsSpec (rows : List CountRow) (productID : Nat)
    (skus : List ProductSKU) : List ProductSKU × (Nat × Nat × Nat × Nat) :=
  let prows := rows.filter (fun r => r.productID == productID)
  let defaultID := ((skus.find? (fun s => s.skuCode == defaultSKUCode)).map
    (fun s => s.id)).getD 0
  let counts := buildCounts defaultID prows
  let skus' := skus.map (fun s =>
    let a := countsFor counts (s.id, .available)
    let l := countsFor counts (s.id, .reserved)
    let u := countsFor counts (s.id, .used)
    { s with
      autoStockAvailable := a
      autoStockLocked := l
      autoStockSold := u
      autoStockTotal := a + l + u })
  let agg := skus'.foldl (fun acc s =>
    (acc.1 + s.autoStockAvailable, acc.2.1 + s.autoStockLocked,
     acc.2.2.1 + s.autoStockSold, acc.2.2.2 + s.autoStockTotal)) (0, 0, 0, 0)
  (skus', agg)

/-- The declarative per-SKU count the claim describes: the summed totals of
the product's rows of the given status whose SKU reference is the SKU itself,
legacy rows (SKU reference 0) counting toward the default SKU. -/
def statusTotal (prows : List CountRow) (sid dfid : Nat) (st : CardStatus) : Nat :=
  ((prows.filter (fun r =>
    decide ((r.skuID = sid ∨ (r.skuID = 0 ∧ sid = dfid)) ∧ r.status = st))).map
      (fun r => r.total)).sum

end Service

/-! ## Concrete fixtures used by witnesses and counterexamples -/

/-- The payload of the repository's SignPayload unit test. -/
def testPayload : Tokenpay.Payload :=
  [("OutOrderId", .str "ORDER-1001"), ("Status", .int 1),
   ("Empty", .str ""), ("Signature", .str "will-be-ignored")]

/-- A parsed callback carrying a signature that does not verify. -/
def badCallbackData : Tokenpay.CallbackData where
  raw := [("Id", .str "tp-1"), ("OutOrderId", .str "o1"),
          ("Status", .int 1), ("Signature", .str "deadbeef")]
  signature := "deadbeef"
  tokenOrderID := "tp-1"
  outOrderID := "o1"
  status := 1
  passThroughInfo := ""

/-- A tokenpay channel with a valid configuration. -/
def testChannel : Public.ChannelRec :=
  ⟨"tokenpay", some ⟨"https://gw.example", "secret", "USDT"⟩⟩

/-- A payment-id repository oracle that never finds a row. -/
def oracleByIDNone : Nat → Option Public.PaymentRec := fun _ => none

/-- A provider-reference repository oracle returning payment 1 on channel 1. -/
def oracleLatest : String → Option Public.PaymentRec := fun _ => some ⟨1, 1⟩

/-- A channel repository oracle returning the tokenpay test channel. -/
def oracleChannel : Nat → Option Public.ChannelRec := fun _ => some testChannel

/-- A payment-service oracle whose HandleCallback always succeeds. -/
def oracleHandle : Nat → PaymentStatus → Option Public.PaymentRec :=
  fun _ _ => some ⟨1, 1⟩

/-- The SKU rows of TestSyncSingleProductSKU_MultipleRowsKeepsSingleActive:
an inactive default-coded SKU and two active SKUs where the first-created
(lowest id) active SKU has the larger sortOrder. -/
def testSKUs : List Service.ProductSKU :=
  [⟨1, "default", 0, 10, 9, false, 0, 0, 0, 0⟩,
   ⟨2, "A", 2, 20, 2, true, 0, 0, 0, 0⟩,
   ⟨3, "B", 1, 30, 4, true, 0, 0, 0, 0⟩]

/-- The grouped count rows of
TestApplyAutoStockCounts_LegacyStockPrefersDefaultSKU. -/
def testRows : List Service.CountRow :=
  [⟨3001, 0, .available, 2⟩, ⟨3001, 0, .reserved, 1⟩, ⟨3001, 0, .used, 1⟩,
   ⟨3001, 101, .available, 3⟩, ⟨3001, 102, .available, 4⟩]

/-- The product's SKUs in that test: the non-default SKU listed first. -/
def testStockSKUs : List Service.ProductSKU :=
  [⟨102, "B", 0, 0, 0, true, 0, 0, 0, 0⟩,
   ⟨101, "default", 0, 0, 0, true, 0, 0, 0, 0⟩]

/-! ## Supporting lemmas -/

theorem canExpire_iff (p : Service.Payment) (r : Service.WalletRechargeOrder) :
    Service.canExpireWalletRechargePayment p r = true ↔
      (p.status = .initiated ∨ p.status = .pending) ∧ r.status = .pending := by
  obtain ⟨_, _, ps, _, _, _⟩ := p
  obtain ⟨_, rs, _, _⟩ := r
  cases ps <;> cases rs <;>
    simp [Service.canExpireWalletRechargePayment]

theorem expire_noop (now pid : Nat) (p : Service.Payment)
    (r : Service.WalletRechargeOrder) (hpid : pid ≠ 0)
    (h : p.status = .success ∨ p.status = .failed ∨ p.status = .expired ∨
      p.orderID ≠ 0 ∨ r.status ≠ .pending) :
    Service.ExpireWalletRechargePayment now pid (some p) (some r) =
      .ok (p, some r, p) := by
  unfold Service.ExpireWalletRechargePayment
  rw [if_neg hpid]
  by_cases ho : p.orderID ≠ 0
  · simp [ho]
  · push_neg at ho
    have hcan : Service.canExpireWalletRechargePayment p r = false := by
      rcases Bool.eq_false_or_eq_true (Service.canExpireWalletRechargePayment p r)
        with hb | hb
      · exfalso
        obtain ⟨hps, hrs⟩ := (canExpire_iff p r).mp hb
        rcases h with h | h | h | h | h <;> rcases hps with h2 | h2 <;>
          simp_all
      · exact hb
    simp [ho, hcan]

theorem expire_fires (now pid : Nat) (p : Service.Payment)
    (r : Service.WalletRechargeOrder) (hpid : pid ≠ 0) (ho : p.orderID = 0)
    (hp : p.status = .pending ∨ p.status = .initiated) (hr : r.status = .pending) :
    Service.ExpireWalletRechargePayment now pid (some p) (some r) =
      .ok ({ p with status := .expired, expiredAt := some now, updatedAt := now },
        some { r with status := .expired, updatedAt := now },
        { p with status := .expired, expiredAt := some now, updatedAt := now }) := by
  have hcan : Service.canExpireWalletRechargePayment p r = true :=
    (canExpire_iff p r).mpr ⟨hp.elim Or.inr Or.inl, hr⟩
  unfold Service.ExpireWalletRechargePayment
  rw [if_neg hpid]
  simp [ho, hcan]

/-! ## Claim theorems -/

/-- C1: for every Payment with a terminal status, every Payment owning an
Order, and every Payment whose recharge order is not Pending,
ExpireWalletRechargePayment is a no-op returning the Payment unchanged and
leaving the stored payment and recharge rows exactly as they were. -/
theorem expire_guard_noop (now pid : Nat) (p : Service.Payment)
    (r : Service.WalletRechargeOrder) (hpid : pid ≠ 0)
    (h : p.status = .success ∨ p.status = .failed ∨ p.status = .expired ∨
      p.orderID ≠ 0 ∨ r.status ≠ .pending) :
    Service.ExpireWalletRechargePayment now pid (some p) (some r) =
      .ok (p, some r, p) :=
  expire_noop now pid p r hpid h

/-- Witness instantiating the C1 guard theorem on a Success payment. -/
theorem expire_guard_noop_witness :
    Service.ExpireWalletRechargePayment 5 7
      (some ⟨7, 0, .success, some 3, none, 0⟩) (some ⟨7, .success, some 3, 0⟩) =
      .ok (⟨7, 0, .success, some 3, none, 0⟩, some ⟨7, .success, some 3, 0⟩,
        ⟨7, 0, .success, some 3, none, 0⟩) :=
  expire_guard_noop 5 7 ⟨7, 0, .success, some 3, none, 0⟩ ⟨7, .success, some 3, 0⟩
    (by decide) (Or.inr (Or.inr (Or.inr (Or.inr (by decide)))))

/-- C2: a pending (or initiated) wallet-recharge Payment whose recharge order
is Pending transitions, with its recharge order, to Expired with ExpiredAt
set, and running the expiry again on the resulting rows returns the same
Expired state unchanged. -/
theorem expire_fires_and_idempotent (now now2 pid : Nat) (p : Service.Payment)
    (r : Service.WalletRechargeOrder) (hpid : pid ≠ 0) (ho : p.orderID = 0)
    (hp : p.status = .pending ∨ p.status = .initiated) (hr : r.status = .pending) :
    Service.ExpireWalletRechargePayment now pid (some p) (some r) =
      .ok ({ p with status := .expired, expiredAt := some now, updatedAt := now },
        some { r with status := .expired, updatedAt := now },
        { p with status := .expired, expiredAt := some now, updatedAt := now }) ∧
    Service.ExpireWalletRechargePayment now2 pid
      (some { p with status := .expired, expiredAt := some now, updatedAt := now })
      (some { r with status := .expired, updatedAt := now }) =
      .ok ({ p with status := .expired, expiredAt := some now, updatedAt := now },
        some { r with status := .expired, updatedAt := now },
        { p with status := .expired, expiredAt := some now, updatedAt := now }) :=
  ⟨expire_fires now pid p r hpid ho hp hr,
   expire_noop now2 pid
     { p with status := .expired, expiredAt := some now, updatedAt := now }
     { r with status := .expired, updatedAt := now } hpid
     (Or.inr (Or.inr (Or.inl rfl)))⟩

/-- Witness instantiating the C2 expiry theorem on a pending recharge. -/
theorem expire_fires_and_idempotent_witness :
    Service.ExpireWalletRechargePayment 9 4
      (some ⟨4, 0, .pending, none, none, 1⟩) (some ⟨4, .pending, none, 1⟩) =
      .ok (⟨4, 0, .expired, none, some 9, 9⟩, some ⟨4, .expired, none, 9⟩,
        ⟨4, 0, .expired, none, some 9, 9⟩) ∧
    Service.ExpireWalletRechargePayment 11 4
      (some ⟨4, 0, .expired, none, some 9, 9⟩) (some ⟨4, .expired, none, 9⟩) =
      .ok (⟨4, 0, .expired, none, some 9, 9⟩, some ⟨4, .expired, none, 9⟩,
        ⟨4, 0, .expired, none, some 9, 9⟩) :=
  expire_fires_and_idempotent 9 11 4 ⟨4, 0, .pending, none, none, 1⟩
    ⟨4, .pending, none, 1⟩ (by decide) rfl (Or.inl rfl) rfl

/-- C4: the tokenpay status mapper sends 1 to Success, 2 to Expired and every
other code to Pending, and the payment-intent mapper of the checkout-style
provider sends every unrecognized status to Pending; both only ever produce
canonical statuses, never Initiated. -/
theorem status_mapping_total (n : Int) (s : String) :
    (Tokenpay.ToPaymentStatus n = .pending ∨ Tokenpay.ToPaymentStatus n = .success ∨
      Tokenpay.ToPaymentStatus n = .failed ∨ Tokenpay.ToPaymentStatus n = .expired) ∧
    (n ≠ 1 → n ≠ 2 → Tokenpay.ToPaymentStatus n = .pending) ∧
    Tokenpay.ToPaymentStatus 1 = .success ∧
    Tokenpay.ToPaymentStatus 2 = .expired ∧
    (Stripe.mapPaymentIntentStatus s = .pending ∨
      Stripe.mapPaymentIntentStatus s = .success ∨
      Stripe.mapPaymentIntentStatus s = .failed) ∧
    (s ≠ "succeeded" → s ≠ "processing" → s ≠ "canceled" →
      s ≠ "requires_payment_method" → Stripe.mapPaymentIntentStatus s = .pending) := by
  unfold Tokenpay.ToPaymentStatus Stripe.mapPaymentIntentStatus
  refine ⟨?_, ?_, by decide, by decide, ?_, ?_⟩
  · split_ifs <;> simp
  · intro h1 h2; rw [if_neg h1, if_neg h2]
  · split_ifs <;> simp
  · intro h1 h2 h3 h4; rw [if_neg h1, if_neg h2, if_neg h3, if_neg h4]

/-- Witness instantiating the C4 mapping theorem at an unrecognized code and
an unrecognized payment-intent status. -/
theorem status_mapping_total_witness :
    Tokenpay.ToPaymentStatus 7 = .pending ∧
    Stripe.mapPaymentIntentStatus "unknown" = .pending :=
  ⟨(status_mapping_total 7 "unknown").2.1 (by decide) (by decide),
   (status_mapping_total 7 "unknown").2.2.2.2.2 (by decide) (by decide) (by decide)
     (by decide)⟩

/-- C5: with wallet balance 100, order total 50 and useWalletBalance set, the
wallet is debited to 50, the order is marked paid with paid-at set, a Success
wallet-provider Payment of amount 50 with paid-at set is synthesized, and no
gateway call is made. -/
theorem wallet_full_payment_scenario :
    (Service.CreatePayment 1 ⟨"pending_payment", 50, 0, none⟩ ⟨100⟩ true
      "tokenpay").account.balance = 50 ∧
    (Service.CreatePayment 1 ⟨"pending_payment", 50, 0, none⟩ ⟨100⟩ true
      "tokenpay").order.status = "paid" ∧
    (Service.CreatePayment 1 ⟨"pending_payment", 50, 0, none⟩ ⟨100⟩ true
      "tokenpay").order.paidAt = some 1 ∧
    (Service.CreatePayment 1 ⟨"pending_payment", 50, 0, none⟩ ⟨100⟩ true
      "tokenpay").paymentRow = some ⟨"wallet", "balance", .success, 50, some 1⟩ ∧
    (Service.CreatePayment 1 ⟨"pending_payment", 50, 0, none⟩ ⟨100⟩ true
      "tokenpay").gatewayCalled = false ∧
    (Service.CreatePayment 1 ⟨"pending_payment", 50, 0, none⟩ ⟨100⟩ true
      "tokenpay").walletPaidAmount = 50 ∧
    (Service.CreatePayment 1 ⟨"pending_payment", 50, 0, none⟩ ⟨100⟩ true
      "tokenpay").onlinePayAmount = 0 := by
  decide

/-- C8: the callback handler resolves the target Payment by the passthrough
payment identifier when it is positive and that lookup succeeds; in every
other case it falls back to the latest Payment matching the provider order
reference. -/
theorem callback_resolution_order (pt ref : String)
    (byID : Nat → Option Public.PaymentRec)
    (latestByRef : String → Option Public.PaymentRec) :
    (∀ p, 0 < Tokenpay.ParsePassThroughPaymentID pt →
      byID (Tokenpay.ParsePassThroughPaymentID pt) = some p →
      Public.resolvePayment pt ref byID latestByRef = some p) ∧
    (Tokenpay.ParsePassThroughPaymentID pt = 0 ∨
        byID (Tokenpay.ParsePassThroughPaymentID pt) = none →
      Public.resolvePayment pt ref byID latestByRef = latestByRef ref) := by
  constructor
  · intro p hpos hby
    simp [Public.resolvePayment, hpos, hby]
  · intro h
    rcases h with h | h
    · simp [Public.resolvePayment, h]
    · by_cases hpos : 0 < Tokenpay.ParsePassThroughPaymentID pt
      · simp [Public.resolvePayment, hpos, h]
      · simp [Public.resolvePayment, hpos]

/-- Witness instantiating the C8 resolution theorem: the passthrough id wins
when its lookup succeeds, and the provider reference is used when the
passthrough is absent. -/
theorem callback_resolution_order_witness :
    Public.resolvePayment "payment_id=7" "tp-1"
      (fun n => if n = 7 then some ⟨7, 2⟩ else none) oracleLatest = some ⟨7, 2⟩ ∧
    Public.resolvePayment "" "tp-1"
      (fun n => if n = 7 then some ⟨7, 2⟩ else none) oracleLatest = some ⟨1, 1⟩ :=
  ⟨(callback_resolution_order "payment_id=7" "tp-1"
      (fun n => if n = 7 then some ⟨7, 2⟩ else none) oracleLatest).1 ⟨7, 2⟩
      (by decide) (by decide),
   (callback_resolution_order "" "tp-1"
      (fun n => if n = 7 then some ⟨7, 2⟩ else none) oracleLatest).2
      (Or.inl (by decide))⟩

theorem hexDigit_lower : ∀ n < 16, Char.toLower (hexDigit n) = hexDigit n := by
  decide

theorem map_toLower_hexChars (l : List Nat) :
    ((l.map hexOfByte).flatten).map Char.toLower = (l.map hexOfByte).flatten := by
  induction l with
  | nil => rfl
  | cons b bs ih =>
    simp only [List.map_cons, List.flatten_cons, List.map_append, ih]
    congr 1
    simp only [hexOfByte, List.map_cons, List.map_nil]
    rw [hexDigit_lower _ (Nat.mod_lt _ (by norm_num)),
      hexDigit_lower _ (Nat.mod_lt _ (by norm_num))]

theorem toLower_md5Hex (s : String) : toLowerStr (md5Hex s) = md5Hex s := by
  unfold toLowerStr md5Hex
  exact congrArg String.mk (map_toLower_hexChars _)

/-- C3 counterexample: with a shared secret carrying surrounding whitespace,
SignPayload (which trims the secret) disagrees with the claim's formula that
appends the raw shared secret. -/
theorem sign_raw_secret_counterexample :
    Tokenpay.SignPayload testPayload " secret " ≠
      Tokenpay.signPayloadSpecRaw testPayload " secret " := by
  decide

/-- C3 amended: for every payload and secret, the Provider A signature is the
lowercase hex MD5 of the sorted non-empty key=value pairs joined with
ampersands followed by the trimmed shared secret, and the pinned test vector
evaluates to the expected digest. -/
theorem signPayload_matches_spec (payload : Tokenpay.Payload) (secret : String) :
    Tokenpay.SignPayload payload secret =
      Tokenpay.signPayloadSpecTrim payload secret ∧
    Tokenpay.SignPayload testPayload "secret" =
      "f8a446bc7d18188839fcc25918ec2078" := by
  constructor
  · exact toLower_md5Hex _
  · decide

theorem if_zero_eq (n : Nat) : (if n = 0 then 0 else n) = n := by
  by_cases h : n = 0 <;> simp [h]

theorem scan_findSome (parts : List (List Char)) (raw : String) :
    Tokenpay.scanPaymentID parts raw =
      match parts.findSome? Tokenpay.paymentIDValue? with
      | some v => goTrim v
      | none => raw := by
  induction parts with
  | nil => rfl
  | cons part rest ih =>
    cases hsp : splitFirstEq part with
    | none =>
      simp [Tokenpay.scanPaymentID, Tokenpay.paymentIDValue?, List.findSome?_cons,
        hsp, ih]
    | some kv =>
      obtain ⟨k, v⟩ := kv
      by_cases hk : eqFold (goTrim (String.mk k)) "payment_id" = true
      · simp [Tokenpay.scanPaymentID, Tokenpay.paymentIDValue?, List.findSome?_cons,
          hsp, hk]
      · simp only [Bool.not_eq_true] at hk
        simp [Tokenpay.scanPaymentID, Tokenpay.paymentIDValue?, List.findSome?_cons,
          hsp, hk, ih]

/-- C10: ParsePassThroughPaymentID behaves exactly as the claim describes —
the candidate is the value of the case-insensitive payment_id key when the
trimmed string contains an equals sign and such a key exists, else the whole
trimmed string, and empty, unparseable or zero candidates give zero — and the
repository's test vectors evaluate accordingly. -/
theorem parse_passthrough_matches_spec (s : String) :
    Tokenpay.ParsePassThroughPaymentID s = Tokenpay.parsePassThroughSpec s ∧
    Tokenpay.ParsePassThroughPaymentID "payment_id=123" = 123 ∧
    Tokenpay.ParsePassThroughPaymentID "123" = 123 ∧
    Tokenpay.ParsePassThroughPaymentID "x=1" = 0 ∧
    Tokenpay.ParsePassThroughPaymentID "" = 0 ∧
    Tokenpay.ParsePassThroughPaymentID "payment_id=0" = 0 ∧
    Tokenpay.ParsePassThroughPaymentID "payment_id=99999999999999999999" = 0 := by
  refine ⟨?_, by decide, by decide, by decide, by decide, by decide, by decide⟩
  unfold Tokenpay.ParsePassThroughPaymentID Tokenpay.parsePassThroughSpec
  by_cases h0 : goTrim s = ""
  · simp [h0]
  · simp only [h0, if_false, scan_findSome]
    by_cases hc : containsCh (goTrim s) '=' = true
    · simp only [hc, if_true]
      cases hf : (splitCh '&' (goTrim s).data).findSome? Tokenpay.paymentIDValue? with
      | none =>
        cases hp : Tokenpay.parseUintDec (goTrim s) with
        | none => simp [hp]
        | some n => simp [hp, if_zero_eq]
      | some v =>
        cases hp : Tokenpay.parseUintDec (goTrim v) with
        | none => simp [hp]
        | some n => simp [hp, if_zero_eq]
    · simp only [Bool.not_eq_true] at hc
      simp only [hc, if_false]
      cases hp : Tokenpay.parseUintDec (goTrim s) with
      | none => simp [hp]
      | some n => simp [hp, if_zero_eq]

/-- The currency-defaulted configuration the handler verifies against. -/
def effectiveConfig (cfg0 : Tokenpay.Config) : Tokenpay.Config :=
  if goTrim cfg0.currency == "" then
    { cfg0 with currency := Tokenpay.DefaultCurrency } else cfg0

/-- C9 counterexample: a parsed callback whose signature does not verify is
not treated as a no-match — the handler reports matched and writes the
processing-failed acknowledgement token. -/
theorem callback_sig_fail_counterexample :
    Tokenpay.VerifyCallback badCallbackData "secret" = false ∧
    Public.HandleTokenPayCallback (some badCallbackData) oracleByIDNone
      oracleLatest oracleChannel oracleHandle = (true, some .fail) := by
  decide

/-- C9 amended: parse failures and bodies missing the signature or order
references are treated as not a match for this provider, while a resolved
callback whose signature fails verification is acknowledged as matched with
the processing-failed token. -/
theorem callback_no_match_policy
    (byID : Nat → Option Public.PaymentRec)
    (latestByRef : String → Option Public.PaymentRec)
    (channelOf : Nat → Option Public.ChannelRec)
    (handleCallback : Nat → PaymentStatus → Option Public.PaymentRec) :
    Public.HandleTokenPayCallback none byID latestByRef channelOf handleCallback =
      (false, none) ∧
    (∀ data : Tokenpay.CallbackData,
      (goTrim data.signature == "" || goTrim data.outOrderID == "" ||
        goTrim data.tokenOrderID == "") = true →
      Public.HandleTokenPayCallback (some data) byID latestByRef channelOf
        handleCallback = (false, none)) ∧
    (∀ (data : Tokenpay.CallbackData) (payment : Public.PaymentRec)
        (channel : Public.ChannelRec) (cfg0 : Tokenpay.Config),
      (goTrim data.signature == "" || goTrim data.outOrderID == "" ||
        goTrim data.tokenOrderID == "") = false →
      Public.resolvePayment data.passThroughInfo data.tokenOrderID byID
        latestByRef = some payment →
      channelOf payment.channelID = some channel →
      (toLowerStr (goTrim channel.providerType) == "tokenpay") = true →
      channel.config = some cfg0 →
      Tokenpay.ValidateConfig (effectiveConfig cfg0) = true →
      Tokenpay.VerifyCallback data (effectiveConfig cfg0).notifySecret = false →
      Public.HandleTokenPayCallback (some data) byID latestByRef channelOf
        handleCallback = (true, some .fail)) := by
  refine ⟨rfl, ?_, ?_⟩
  · intro data hblank
    simp [Public.HandleTokenPayCallback, hblank]
  · intro data payment channel cfg0 hblank hres hch hprov hcfg hval hver
    simp only [effectiveConfig, beq_iff_eq] at hval hver
    simp [Public.HandleTokenPayCallback, hblank, hres, hch, hprov, hcfg, hval, hver]

/-- Witness instantiating the C9 amended theorem at the invalid-signature
fixture. -/
theorem callback_no_match_policy_witness :
    Public.HandleTokenPayCallback (some badCallbackData) oracleByIDNone
      oracleLatest oracleChannel oracleHandle = (true, some .fail) :=
  (callback_no_match_policy oracleByIDNone oracleLatest oracleChannel
      oracleHandle).2.2 badCallbackData ⟨1, 1⟩ testChannel
    ⟨"https://gw.example", "secret", "USDT"⟩ (by decide) (by decide) rfl
    (by decide) rfl (by decide) (by decide)

theorem skuLt_iff (a b : Service.ProductSKU) :
    Service.skuLt a b = true ↔
      (a.sortOrder < b.sortOrder ∨ (a.sortOrder = b.sortOrder ∧ a.id < b.id)) := by
  unfold Service.skuLt
  split_ifs with h1 h2 <;> simp <;> omega

theorem skuLt_false_iff (a b : Service.ProductSKU) :
    Service.skuLt a b = false ↔
      ¬(a.sortOrder < b.sortOrder ∨ (a.sortOrder = b.sortOrder ∧ a.id < b.id)) := by
  rw [← skuLt_iff]
  cases Service.skuLt a b <;> simp

theorem skuIdLt_iff (a b : Service.ProductSKU) :
    Service.skuIdLt a b = true ↔ a.id < b.id := by
  unfold Service.skuIdLt
  simp

theorem skuIdLt_false_iff (a b : Service.ProductSKU) :
    Service.skuIdLt a b = false ↔ ¬(a.id < b.id) := by
  rw [← skuIdLt_iff]
  cases Service.skuIdLt a b <;> simp

theorem minSKUBy_mem (lt : Service.ProductSKU → Service.ProductSKU → Bool) :
    ∀ (xs : List Service.ProductSKU) (x : Service.ProductSKU),
      Service.minSKUBy lt x xs = x ∨ Service.minSKUBy lt x xs ∈ xs := by
  intro xs
  induction xs with
  | nil => intro x; exact Or.inl rfl
  | cons y ys ih =>
    intro x
    simp only [Service.minSKUBy]
    by_cases h : lt y x = true
    · rw [if_pos h]
      rcases ih y with h2 | h2
      · exact Or.inr (by rw [h2]; exact List.mem_cons_self _ _)
      · exact Or.inr (List.mem_cons_of_mem _ h2)
    · rw [if_neg h]
      rcases ih x with h2 | h2
      · exact Or.inl h2
      · exact Or.inr (List.mem_cons_of_mem _ h2)

theorem minSKUBy_min (lt : Service.ProductSKU → Service.ProductSKU → Bool)
    (hasym : ∀ a b, lt a b = true → lt b a = false)
    (hcot : ∀ a b c, lt a c = true → lt a b = true ∨ lt b c = true) :
    ∀ (xs : List Service.ProductSKU) (x s : Service.ProductSKU),
      s = x ∨ s ∈ xs → lt s (Service.minSKUBy lt x xs) = false := by
  have hirr : ∀ a, lt a a = false := by
    intro a
    cases h : lt a a
    · rfl
    · have h2 := hasym a a h
      rw [h] at h2
      exact Bool.noConfusion h2
  intro xs
  induction xs with
  | nil =>
    intro x s hs
    rcases hs with rfl | h
    · simpa [Service.minSKUBy] using hirr s
    · cases h
  | cons y ys ih =>
    intro x s hs
    simp only [Service.minSKUBy]
    by_cases hyx : lt y x = true
    · rw [if_pos hyx]
      rcases hs with rfl | hmem
      · cases hxm : lt s (Service.minSKUBy lt y ys)
        · rfl
        · rcases hcot s y (Service.minSKUBy lt y ys) hxm with h2 | h2
          · have h3 := hasym y s hyx
            rw [h2] at h3
            exact Bool.noConfusion h3
          · have hy := ih y y (Or.inl rfl)
            rw [hy] at h2
            exact Bool.noConfusion h2
      · rcases List.mem_cons.mp hmem with rfl | hmem2
        · exact ih s s (Or.inl rfl)
        · exact ih y s (Or.inr hmem2)
    · rw [if_neg hyx]
      have hyx' : lt y x = false := by
        cases h : lt y x
        · rfl
        · exact absurd h hyx
      rcases hs with rfl | hmem
      · exact ih s s (Or.inl rfl)
      · rcases List.mem_cons.mp hmem with rfl | hmem2
        · cases hym : lt s (Service.minSKUBy lt x ys)
          · rfl
          · rcases hcot s x (Service.minSKUBy lt x ys) hym with h2 | h2
            · rw [hyx'] at h2
              exact Bool.noConfusion h2
            · have hx := ih x x (Or.inl rfl)
              rw [hx] at h2
              exact Bool.noConfusion h2
        · exact ih x s (Or.inr hmem2)

theorem minSKUBy_mem_cons (lt : Service.ProductSKU → Service.ProductSKU → Bool)
    (a : Service.ProductSKU) (as : List Service.ProductSKU) :
    Service.minSKUBy lt a as ∈ a :: as := by
  rcases minSKUBy_mem lt as a with h | h
  · rw [h]; exact List.mem_cons_self _ _
  · exact List.mem_cons_of_mem _ h

theorem skuIdLt_asym : ∀ a b, Service.skuIdLt a b = true →
    Service.skuIdLt b a = false := by
  intro a b h
  rw [skuIdLt_iff] at h
  rw [skuIdLt_false_iff]
  omega

theorem skuIdLt_cotrans : ∀ a b c, Service.skuIdLt a c = true →
    Service.skuIdLt a b = true ∨ Service.skuIdLt b c = true := by
  intro a b c h
  rw [skuIdLt_iff] at h
  rw [skuIdLt_iff, skuIdLt_iff]
  omega

theorem skuLt_asym : ∀ a b, Service.skuLt a b = true →
    Service.skuLt b a = false := by
  intro a b h
  rw [skuLt_iff] at h
  rw [skuLt_false_iff]
  omega

theorem skuLt_cotrans : ∀ a b c, Service.skuLt a c = true →
    Service.skuLt a b = true ∨ Service.skuLt b c = true := by
  intro a b c h
  rw [skuLt_iff] at h
  rw [skuLt_iff, skuLt_iff]
  omega

theorem chooseTarget_priority (skus : List Service.ProductSKU) (hne : skus ≠ []) :
    ∃ t, Service.chooseTarget skus = some t ∧ t ∈ skus ∧
      ((skus.filter (fun s => s.isActive) ≠ [] ∧ t.isActive = true ∧
        ∀ s ∈ skus, s.isActive = true → Service.skuIdLt s t = false) ∨
       (skus.filter (fun s => s.isActive) = [] ∧
        t.skuCode = Service.defaultSKUCode) ∨
       (skus.filter (fun s => s.isActive) = [] ∧
        (∀ s ∈ skus, s.skuCode ≠ Service.defaultSKUCode) ∧
        ∀ s ∈ skus, Service.skuLt s t = false)) := by
  unfold Service.chooseTarget
  cases hact : skus.filter (fun s => s.isActive) with
  | cons a as =>
    refine ⟨Service.minSKUBy Service.skuIdLt a as, rfl, ?_, Or.inl ⟨?_, ?_, ?_⟩⟩
    · have hmem := minSKUBy_mem_cons Service.skuIdLt a as
      rw [← hact] at hmem
      exact List.mem_of_mem_filter hmem
    · simp
    · have hmem := minSKUBy_mem_cons Service.skuIdLt a as
      rw [← hact] at hmem
      exact List.of_mem_filter hmem
    · intro s hs hsa
      have : s ∈ skus.filter (fun s => s.isActive) :=
        List.mem_filter.mpr ⟨hs, hsa⟩
      rw [hact] at this
      exact minSKUBy_min Service.skuIdLt skuIdLt_asym skuIdLt_cotrans as a s
        (by rcases List.mem_cons.mp this with h | h
            · exact Or.inl h
            · exact Or.inr h)
  | nil =>
    cases hfind : skus.find? (fun s => s.skuCode == Service.defaultSKUCode) with
    | some d =>
      refine ⟨d, rfl, List.mem_of_find?_eq_some hfind, Or.inr (Or.inl ⟨rfl, ?_⟩)⟩
      have := List.find?_some hfind
      simpa using this
    | none =>
      obtain ⟨a, as, rfl⟩ := List.exists_cons_of_ne_nil hne
      refine ⟨Service.minSKUBy Service.skuLt a as, rfl, ?_,
        Or.inr (Or.inr ⟨rfl, ?_, ?_⟩)⟩
      · exact minSKUBy_mem_cons Service.skuLt a as
      · intro s hs
        have := List.find?_eq_none.mp hfind s hs
        simpa using this
      · intro s hs
        exact minSKUBy_min Service.skuLt skuLt_asym skuLt_cotrans as a s
          (by rcases List.mem_cons.mp hs with h | h
              · exact Or.inl h
              · exact Or.inr h)

theorem filter_map_comm {α β : Type} (f : α → β) (p : β → Bool) (l : List α) :
    (l.map f).filter p = (l.filter (fun x => p (f x))).map f := by
  induction l with
  | nil => rfl
  | cons a l ih =>
    by_cases h : p (f a) = true <;>
      simp [List.filter_cons, h, ih]

theorem filter_id_singleton (skus : List Service.ProductSKU)
    (t : Service.ProductSKU) (ht : t ∈ skus)
    (hnd : (skus.map (fun s => s.id)).Nodup) :
    (skus.filter (fun s => s.id == t.id)).length = 1 := by
  induction skus with
  | nil => cases ht
  | cons a rest ih =>
    rw [List.map_cons, List.nodup_cons] at hnd
    obtain ⟨hna, hnd'⟩ := hnd
    rcases List.mem_cons.mp ht with rfl | hmem
    · rw [List.filter_cons, if_pos (by simp)]
      have hrest : rest.filter (fun s => s.id == t.id) = [] := by
        rw [List.filter_eq_nil_iff]
        intro s hs hbeq
        have : s.id = t.id := by simpa using hbeq
        exact hna (this ▸ List.mem_map_of_mem (fun s => s.id) hs)
      rw [hrest]
      rfl
    · have hne : (a.id == t.id) = false := by
        have : a.id ≠ t.id := fun he =>
          hna (he ▸ List.mem_map_of_mem (fun s => s.id) hmem)
        simpa using this
      rw [List.filter_cons, hne]
      simp only [Bool.false_eq_true, if_false]
      exact ih hmem hnd'

/-- C6 (amended): after syncSingleProductSKU exactly one SKU of the product
is active; the surviving SKU is chosen by priority — the currently active SKU
with the lowest id (not the lowest (sortOrder, id): the repository test pins
the lowest-id active SKU), else the SKU bearing the reserved default code,
else the SKU with the lowest (sortOrder, id) — and it receives the target
price and stock while every other SKU is deactivated. -/
theorem sync_single_active_sku (price stock : Int)
    (skus : List Service.ProductSKU) (hne : skus ≠ [])
    (hnd : (skus.map (fun s => s.id)).Nodup) :
    ∃ t ∈ skus,
      ((Service.syncSingleProductSKU price stock skus).filter
        (fun s => s.isActive)).length = 1 ∧
      (∀ s ∈ Service.syncSingleProductSKU price stock skus,
        (s.id = t.id → s.isActive = true ∧ s.priceAmount = price ∧
          s.manualStockTotal = stock) ∧
        (s.id ≠ t.id → s.isActive = false)) ∧
      ((skus.filter (fun s => s.isActive) ≠ [] ∧ t.isActive = true ∧
        ∀ s ∈ skus, s.isActive = true → Service.skuIdLt s t = false) ∨
       (skus.filter (fun s => s.isActive) = [] ∧
        t.skuCode = Service.defaultSKUCode) ∨
       (skus.filter (fun s => s.isActive) = [] ∧
        (∀ s ∈ skus, s.skuCode ≠ Service.defaultSKUCode) ∧
        ∀ s ∈ skus, Service.skuLt s t = false)) := by
  obtain ⟨t, hct, htm, hprio⟩ := chooseTarget_priority skus hne
  have hsync : Service.syncSingleProductSKU price stock skus =
      skus.map (fun s =>
        if s.id == t.id then
          { s with
            priceAmount := price
            manualStockTotal := stock
            isActive := true }
        else { s with isActive := false }) := by
    simp [Service.syncSingleProductSKU, hct]
  refine ⟨t, htm, ?_, ?_, hprio⟩
  · rw [hsync, filter_map_comm]
    rw [List.length_map]
    have hfc : skus.filter (fun s =>
        (if s.id == t.id then
          { s with
            priceAmount := price
            manualStockTotal := stock
            isActive := true }
        else { s with isActive := false }).isActive) =
        skus.filter (fun s => s.id == t.id) := by
      apply List.filter_congr
      intro s _
      by_cases h : (s.id == t.id) = true <;> simp [h]
    rw [hfc]
    exact filter_id_singleton skus t htm hnd
  · rw [hsync]
    intro s hs
    obtain ⟨s0, hs0, rfl⟩ := List.mem_map.mp hs
    constructor
    · intro hid
      by_cases hc : s0.id = t.id
      · have hcb : (s0.id == t.id) = true := beq_iff_eq.mpr hc
        simp [hcb]
      · have hcb : (s0.id == t.id) = false := by simpa using hc
        simp [hcb] at hid
        exact absurd hid hc
    · intro hid
      by_cases hc : s0.id = t.id
      · have hcb : (s0.id == t.id) = true := beq_iff_eq.mpr hc
        simp [hcb] at hid
        exact absurd hc hid
      · have hcb : (s0.id == t.id) = false := by simpa using hc
        simp [hcb]

/-- C6 counterexample: on the fixture of the repository test
TestSyncSingleProductSKU_MultipleRowsKeepsSingleActive (actives id 2 with
sortOrder 2 and id 3 with sortOrder 1), the claim's lowest-(sortOrder, id)
selection would keep SKU 3 active, while the test requires SKU 2 — the
lowest-id active SKU — to stay active. -/
theorem sku_priority_counterexample :
    ((Service.syncSingleProductSKUSpec 8888 5 testSKUs).filter
      (fun s => s.isActive)).map (fun s => s.id) = [3] ∧
    ((Service.syncSingleProductSKU 8888 5 testSKUs).filter
      (fun s => s.isActive)).map (fun s => s.id) = [2] := by
  decide

/-- Witness instantiating the C6 theorem on the repository test fixture. -/
theorem sync_single_active_sku_witness :
    (testSKUs ≠ [] ∧ (testSKUs.map (fun s => s.id)).Nodup) ∧
    ∃ t ∈ testSKUs,
      ((Service.syncSingleProductSKU 8888 5 testSKUs).filter
        (fun s => s.isActive)).length = 1 ∧
      (∀ s ∈ Service.syncSingleProductSKU 8888 5 testSKUs,
        (s.id = t.id → s.isActive = true ∧ s.priceAmount = 8888 ∧
          s.manualStockTotal = 5) ∧
        (s.id ≠ t.id → s.isActive = false)) ∧
      ((testSKUs.filter (fun s => s.isActive) ≠ [] ∧ t.isActive = true ∧
        ∀ s ∈ testSKUs, s.isActive = true → Service.skuIdLt s t = false) ∨
       (testSKUs.filter (fun s => s.isActive) = [] ∧
        t.skuCode = Service.defaultSKUCode) ∨
       (testSKUs.filter (fun s => s.isActive) = [] ∧
        (∀ s ∈ testSKUs, s.skuCode ≠ Service.defaultSKUCode) ∧
        ∀ s ∈ testSKUs, Service.skuLt s t = false)) :=
  ⟨⟨by decide, by decide⟩,
   sync_single_active_sku 8888 5 testSKUs (by decide) (by decide)⟩

theorem sum_map_zero {α : Type} (l : List α) :
    (l.map (fun _ => (0 : Nat))).sum = 0 := by
  induction l <;> simp [*]

theorem sum_map_add {α : Type} (f g : α → Nat) (l : List α) :
    (l.map (fun x => f x + g x)).sum = (l.map f).sum + (l.map g).sum := by
  induction l with
  | nil => rfl
  | cons a l ih =>
    simp only [List.map_cons, List.sum_cons, ih]
    omega

theorem countsFor_addCount :
    ∀ (acc : List ((Nat × Service.CardStatus) × Nat))
      (k k' : Nat × Service.CardStatus) (n : Nat),
      Service.countsFor (Service.addCount acc k n) k' =
        Service.countsFor acc k' + (if k = k' then n else 0) := by
  intro acc
  induction acc with
  | nil =>
    intro k k' n
    by_cases h : k = k' <;> simp [Service.addCount, Service.countsFor, h]
  | cons p rest ih =>
    intro k k' n
    obtain ⟨kk, m⟩ := p
    by_cases h1 : kk = k
    · simp only [Service.addCount, if_pos h1]
      by_cases h2 : kk = k'
      · simp only [Service.countsFor, if_pos h2]
        rw [if_pos (h1 ▸ h2)]
      · simp only [Service.countsFor, if_neg h2]
        rw [if_neg (fun he => h2 (h1.trans he))]
        omega
    · simp only [Service.addCount, if_neg h1]
      by_cases h2 : kk = k'
      · simp only [Service.countsFor, if_pos h2]
        rw [if_neg (fun he => h1 (h2.trans he.symm))]
        omega
      · simp only [Service.countsFor, if_neg h2]
        exact ih k k' n

theorem countsFor_foldl (dfid : Nat) (k : Nat × Service.CardStatus) :
    ∀ (prows : List Service.CountRow)
      (acc : List ((Nat × Service.CardStatus) × Nat)),
      Service.countsFor (prows.foldl (fun acc r =>
        Service.addCount acc (Service.remapSKU dfid r.skuID, r.status) r.total)
          acc) k =
      Service.countsFor acc k +
        ((prows.filter (fun r =>
          decide ((Service.remapSKU dfid r.skuID, r.status) = k))).map
            (fun r => r.total)).sum := by
  intro prows
  induction prows with
  | nil => intro acc; simp
  | cons r rest ih =>
    intro acc
    rw [List.foldl_cons, ih, countsFor_addCount, List.filter_cons]
    by_cases h : (Service.remapSKU dfid r.skuID, r.status) = k
    · rw [if_pos h, if_pos (by simp [h])]
      rw [List.map_cons, List.sum_cons]
      omega
    · rw [if_neg h, if_neg (by simp [h])]
      omega

theorem countsFor_buildCounts (dfid : Nat) (prows : List Service.CountRow)
    (k : Nat × Service.CardStatus) :
    Service.countsFor (Service.buildCounts dfid prows) k =
      ((prows.filter (fun r =>
        decide ((Service.remapSKU dfid r.skuID, r.status) = k))).map
          (fun r => r.total)).sum := by
  unfold Service.buildCounts
  rw [countsFor_foldl]
  simp [Service.countsFor]

theorem lookup_statusTotal (dfid sid : Nat) (hsid : sid ≠ 0)
    (prows : List Service.CountRow) (st : Service.CardStatus) :
    Service.countsFor (Service.buildCounts dfid prows) (sid, st) =
      Service.statusTotal prows sid dfid st := by
  rw [countsFor_buildCounts]
  unfold Service.statusTotal
  have hf : prows.filter (fun r =>
      decide ((Service.remapSKU dfid r.skuID, r.status) = (sid, st))) =
      prows.filter (fun r =>
        decide ((r.skuID = sid ∨ (r.skuID = 0 ∧ sid = dfid)) ∧ r.status = st)) := by
    apply List.filter_congr
    intro r _
    rw [decide_eq_decide]
    unfold Service.remapSKU
    by_cases h : r.skuID = 0
    · rw [if_pos h]
      simp only [Prod.mk.injEq]
      constructor
      · rintro ⟨h1, h2⟩
        exact ⟨Or.inr ⟨h, h1.symm⟩, h2⟩
      · rintro ⟨h1 | ⟨_, h1⟩, h2⟩
        · exact absurd (h1.symm.trans h) hsid
        · exact ⟨h1.symm, h2⟩
    · rw [if_neg h]
      simp only [Prod.mk.injEq]
      constructor
      · rintro ⟨h1, h2⟩
        exact ⟨Or.inl h1, h2⟩
      · rintro ⟨h1 | ⟨h1, _⟩, h2⟩
        · exact ⟨h1, h2⟩
        · exact absurd h1 h
  rw [hf]

theorem statusTotal_cons (r : Service.CountRow) (rest : List Service.CountRow)
    (sid dfid : Nat) (st : Service.CardStatus) :
    Service.statusTotal (r :: rest) sid dfid st =
      (if (r.skuID = sid ∨ (r.skuID = 0 ∧ sid = dfid)) ∧ r.status = st
        then r.total else 0) + Service.statusTotal rest sid dfid st := by
  unfold Service.statusTotal
  rw [List.filter_cons]
  by_cases h : (r.skuID = sid ∨ (r.skuID = 0 ∧ sid = dfid)) ∧ r.status = st
  · simp [h]
  · simp [h]

theorem sum_ite_zero (skus : List Service.ProductSKU) (v c : Nat)
    (h : ∀ s ∈ skus, s.id ≠ v) :
    (skus.map (fun s => if s.id = v then c else 0)).sum = 0 := by
  induction skus with
  | nil => rfl
  | cons a rest ih =>
    simp only [List.map_cons, List.sum_cons]
    rw [if_neg (h a (List.mem_cons_self a rest)),
      ih (fun s hs => h s (List.mem_cons_of_mem _ hs))]

theorem sum_ite_id (skus : List Service.ProductSKU) (v c : Nat)
    (hv : v ∈ skus.map (fun s => s.id))
    (hnd : (skus.map (fun s => s.id)).Nodup) :
    (skus.map (fun s => if s.id = v then c else 0)).sum = c := by
  induction skus with
  | nil => cases hv
  | cons a rest ih =>
    rw [List.map_cons, List.nodup_cons] at hnd
    obtain ⟨hna, hnd'⟩ := hnd
    rw [List.map_cons] at hv
    rcases List.mem_cons.mp hv with heq | hmem
    · simp only [List.map_cons, List.sum_cons]
      rw [if_pos heq.symm]
      rw [sum_ite_zero rest v c ?_]
      · omega
      · intro s hs he
        apply hna
        rw [← heq, ← he]
        exact List.mem_map_of_mem (fun s => s.id) hs
    · have hav : a.id ≠ v := fun he => hna (he ▸ hmem)
      simp only [List.map_cons, List.sum_cons]
      rw [if_neg hav, ih hmem hnd']
      omega

theorem sum_statusTotal (skus : List Service.ProductSKU) (dfid : Nat)
    (st : Service.CardStatus)
    (hnd : (skus.map (fun s => s.id)).Nodup)
    (hdf : dfid ∈ skus.map (fun s => s.id))
    (h0 : ∀ s ∈ skus, s.id ≠ 0) :
    ∀ prows : List Service.CountRow,
      (∀ r ∈ prows, r.skuID = 0 ∨ r.skuID ∈ skus.map (fun s => s.id)) →
      (skus.map (fun s => Service.statusTotal prows s.id dfid st)).sum =
        ((prows.filter (fun r => decide (r.status = st))).map
          (fun r => r.total)).sum := by
  intro prows
  induction prows with
  | nil =>
    intro _
    have h1 : skus.map (fun s => Service.statusTotal [] s.id dfid st) =
        skus.map (fun _ => 0) := List.map_congr_left (fun s _ => rfl)
    rw [h1, sum_map_zero]
    rfl
  | cons r rest ih =>
    intro hcov
    have hcov' : ∀ x ∈ rest, x.skuID = 0 ∨ x.skuID ∈ skus.map (fun s => s.id) :=
      fun x hx => hcov x (List.mem_cons_of_mem _ hx)
    have h1 : skus.map (fun s => Service.statusTotal (r :: rest) s.id dfid st) =
        skus.map (fun s =>
          (if (r.skuID = s.id ∨ (r.skuID = 0 ∧ s.id = dfid)) ∧ r.status = st
            then r.total else 0) + Service.statusTotal rest s.id dfid st) :=
      List.map_congr_left (fun s _ => statusTotal_cons r rest s.id dfid st)
    rw [h1, sum_map_add, List.filter_cons]
    by_cases hst : r.status = st
    · rw [if_pos (by simp [hst])]
      simp only [List.map_cons, List.sum_cons]
      have hite : (skus.map (fun s =>
          if (r.skuID = s.id ∨ (r.skuID = 0 ∧ s.id = dfid)) ∧ r.status = st
            then r.total else 0)).sum = r.total := by
        rcases hcov r (List.mem_cons_self _ _) with h0r | hmemr
        · have h2 : skus.map (fun s =>
              if (r.skuID = s.id ∨ (r.skuID = 0 ∧ s.id = dfid)) ∧ r.status = st
                then r.total else 0) =
              skus.map (fun s => if s.id = dfid then r.total else 0) := by
            apply List.map_congr_left
            intro s hs
            by_cases hsd : s.id = dfid
            · rw [if_pos ⟨Or.inr ⟨h0r, hsd⟩, hst⟩, if_pos hsd]
            · have hn : ¬((r.skuID = s.id ∨ (r.skuID = 0 ∧ s.id = dfid)) ∧
                  r.status = st) := by
                rintro ⟨hh1 | ⟨_, hh2⟩, _⟩
                · exact (h0 s hs) (hh1.symm.trans h0r)
                · exact hsd hh2
              rw [if_neg hn, if_neg hsd]
          rw [h2]
          exact sum_ite_id skus dfid r.total hdf hnd
        · have hrz : r.skuID ≠ 0 := by
            rcases List.mem_map.mp hmemr with ⟨s', hs', he⟩
            exact he ▸ h0 s' hs'
          have h2 : skus.map (fun s =>
              if (r.skuID = s.id ∨ (r.skuID = 0 ∧ s.id = dfid)) ∧ r.status = st
                then r.total else 0) =
              skus.map (fun s => if s.id = r.skuID then r.total else 0) := by
            apply List.map_congr_left
            intro s hs
            by_cases hsr : s.id = r.skuID
            · rw [if_pos ⟨Or.inl hsr.symm, hst⟩, if_pos hsr]
            · have hn : ¬((r.skuID = s.id ∨ (r.skuID = 0 ∧ s.id = dfid)) ∧
                  r.status = st) := by
                rintro ⟨hh1 | ⟨hh1, _⟩, _⟩
                · exact hsr hh1.symm
                · exact hrz hh1
              rw [if_neg hn, if_neg hsr]
          rw [h2]
          exact sum_ite_id skus r.skuID r.total hmemr hnd
      rw [hite, ih hcov']
    · rw [if_neg (by simp [hst])]
      have hite : (skus.map (fun s =>
          if (r.skuID = s.id ∨ (r.skuID = 0 ∧ s.id = dfid)) ∧ r.status = st
            then r.total else 0)).sum = 0 := by
        have h2 : skus.map (fun s =>
            if (r.skuID = s.id ∨ (r.skuID = 0 ∧ s.id = dfid)) ∧ r.status = st
              then r.total else 0) = skus.map (fun _ => 0) := by
          apply List.map_congr_left
          intro s _
          rw [if_neg (fun hh => hst hh.2)]
        rw [h2, sum_map_zero]
      rw [hite, ih hcov']
      omega

theorem foldl_agg :
    ∀ (l : List Service.ProductSKU) (a b c d : Nat),
      l.foldl (fun acc s =>
        (acc.1 + s.autoStockAvailable, acc.2.1 + s.autoStockLocked,
         acc.2.2.1 + s.autoStockSold, acc.2.2.2 + s.autoStockTotal)) (a, b, c, d) =
      (a + (l.map (fun s => s.autoStockAvailable)).sum,
       b + (l.map (fun s => s.autoStockLocked)).sum,
       c + (l.map (fun s => s.autoStockSold)).sum,
       d + (l.map (fun s => s.autoStockTotal)).sum) := by
  intro l
  induction l with
  | nil => intro a b c d; simp
  | cons x xs ih =>
    intro a b c d
    simp only [List.foldl_cons, List.map_cons, List.sum_cons]
    rw [ih]
    simp only [Prod.mk.injEq]
    omega

/-- C7 (amended): after applyAutoStockCounts each SKU's Available, Locked and
Sold equal the summed counts of the product's Available-, Reserved- and
Used-status units attributed to it, legacy rows (SKU reference 0) counting
toward the default-coded SKU rather than being discarded; each SKU's Total is
Available plus Locked (not the sum of the three: the repository fixtures pin
totals that exclude Used units), and the product-level aggregates
are the sums of the per-SKU counters, which in turn equal the raw per-status
totals of the product's rows. -/
theorem stock_aggregation (rows : List Service.CountRow) (productID : Nat)
    (skus : List Service.ProductSKU) (df : Service.ProductSKU)
    (hfind : skus.find? (fun s => s.skuCode == Service.defaultSKUCode) = some df)
    (hnd : (skus.map (fun s => s.id)).Nodup)
    (h0 : ∀ s ∈ skus, s.id ≠ 0)
    (hcov : ∀ r ∈ rows.filter (fun r => r.productID == productID),
      r.skuID = 0 ∨ r.skuID ∈ skus.map (fun s => s.id)) :
    (Service.applyAutoStockCounts rows productID skus).1 =
      skus.map (fun s =>
        { s with
          autoStockAvailable := Service.statusTotal
            (rows.filter (fun r => r.productID == productID)) s.id df.id .available
          autoStockLocked := Service.statusTotal
            (rows.filter (fun r => r.productID == productID)) s.id df.id .reserved
          autoStockSold := Service.statusTotal
            (rows.filter (fun r => r.productID == productID)) s.id df.id .used
          autoStockTotal := Service.statusTotal
            (rows.filter (fun r => r.productID == productID)) s.id df.id .available +
            Service.statusTotal
              (rows.filter (fun r => r.productID == productID)) s.id df.id .reserved }) ∧
    (Service.applyAutoStockCounts rows productID skus).2 =
      (((Service.applyAutoStockCounts rows productID skus).1.map
          (fun s => s.autoStockAvailable)).sum,
       ((Service.applyAutoStockCounts rows productID skus).1.map
          (fun s => s.autoStockLocked)).sum,
       ((Service.applyAutoStockCounts rows productID skus).1.map
          (fun s => s.autoStockSold)).sum,
       ((Service.applyAutoStockCounts rows productID skus).1.map
          (fun s => s.autoStockTotal)).sum) ∧
    ((Service.applyAutoStockCounts rows productID skus).1.map
        (fun s => s.autoStockAvailable)).sum =
      (((rows.filter (fun r => r.productID == productID)).filter
        (fun r => decide (r.status = Service.CardStatus.available))).map
          (fun r => r.total)).sum ∧
    ((Service.applyAutoStockCounts rows productID skus).1.map
        (fun s => s.autoStockLocked)).sum =
      (((rows.filter (fun r => r.productID == productID)).filter
        (fun r => decide (r.status = Service.CardStatus.reserved))).map
          (fun r => r.total)).sum ∧
    ((Service.applyAutoStockCounts rows productID skus).1.map
        (fun s => s.autoStockSold)).sum =
      (((rows.filter (fun r => r.productID == productID)).filter
        (fun r => decide (r.status = Service.CardStatus.used))).map
          (fun r => r.total)).sum := by
  have hdfid : ((skus.find? (fun s =>
      s.skuCode == Service.defaultSKUCode)).map (fun s => s.id)).getD 0 = df.id := by
    rw [hfind]
    rfl
  have hdfmem : df.id ∈ skus.map (fun s => s.id) :=
    List.mem_map_of_mem (fun s => s.id) (List.mem_of_find?_eq_some hfind)
  have hout1 : (Service.applyAutoStockCounts rows productID skus).1 =
      skus.map (fun s =>
        { s with
          autoStockAvailable := Service.statusTotal
            (rows.filter (fun r => r.productID == productID)) s.id df.id .available
          autoStockLocked := Service.statusTotal
            (rows.filter (fun r => r.productID == productID)) s.id df.id .reserved
          autoStockSold := Service.statusTotal
            (rows.filter (fun r => r.productID == productID)) s.id df.id .used
          autoStockTotal := Service.statusTotal
            (rows.filter (fun r => r.productID == productID)) s.id df.id .available +
            Service.statusTotal
              (rows.filter (fun r => r.productID == productID)) s.id df.id .reserved }) := by
    simp only [Service.applyAutoStockCounts]
    rw [hdfid]
    apply List.map_congr_left
    intro s hs
    rw [lookup_statusTotal df.id s.id (h0 s hs) _ .available,
      lookup_statusTotal df.id s.id (h0 s hs) _ .reserved,
      lookup_statusTotal df.id s.id (h0 s hs) _ .used]
  have hout2 : (Service.applyAutoStockCounts rows productID skus).2 =
      ((Service.applyAutoStockCounts rows productID skus).1).foldl (fun acc s =>
        (acc.1 + s.autoStockAvailable, acc.2.1 + s.autoStockLocked,
         acc.2.2.1 + s.autoStockSold, acc.2.2.2 + s.autoStockTotal)) (0, 0, 0, 0) :=
    rfl
  refine ⟨hout1, ?_, ?_, ?_, ?_⟩
  · rw [hout2, foldl_agg]
    simp
  · rw [hout1, List.map_map]
    exact sum_statusTotal skus df.id .available hnd hdfmem h0
      (rows.filter (fun r => r.productID == productID)) hcov
  · rw [hout1, List.map_map]
    exact sum_statusTotal skus df.id .reserved hnd hdfmem h0
      (rows.filter (fun r => r.productID == productID)) hcov
  · rw [hout1, List.map_map]
    exact sum_statusTotal skus df.id .used hnd hdfmem h0
      (rows.filter (fun r => r.productID == productID)) hcov

/-- C7 counterexample: on the fixture of the repository test
TestApplyAutoStockCounts_LegacyStockPrefersDefaultSKU, the claim's
Total-as-sum-of-the-three gives a product total of 11, while the test
requires 10 (9 available + 1 locked, Used units excluded, as the stored SKU
fixture of TestDecorateProductStock_AutoSkipsInactiveSKUs also pins); the
amended aggregation reproduces every expectation of the test. -/
theorem stock_total_counterexample :
    (Service.applyAutoStockCountsSpec testRows 3001 testStockSKUs).2 =
      (9, 1, 1, 11) ∧
    (Service.applyAutoStockCounts testRows 3001 testStockSKUs).2 =
      (9, 1, 1, 10) ∧
    ((Service.applyAutoStockCounts testRows 3001 testStockSKUs).1.map
      (fun s => (s.id, s.autoStockAvailable, s.autoStockLocked, s.autoStockSold))) =
      [(102, 4, 0, 0), (101, 5, 1, 1)] := by
  decide

/-- Witness instantiating the C7 theorem on the repository test fixture. -/
theorem stock_aggregation_witness :
    (testStockSKUs.find? (fun s => s.skuCode == Service.defaultSKUCode) =
      some ⟨101, "default", 0, 0, 0, true, 0, 0, 0, 0⟩) ∧
    (Service.applyAutoStockCounts testRows 3001 testStockSKUs).1 =
      testStockSKUs.map (fun s =>
        { s with
          autoStockAvailable := Service.statusTotal
            (testRows.filter (fun r => r.productID == 3001)) s.id 101 .available
          autoStockLocked := Service.statusTotal
            (testRows.filter (fun r => r.productID == 3001)) s.id 101 .reserved
          autoStockSold := Service.statusTotal
            (testRows.filter (fun r => r.productID == 3001)) s.id 101 .used
          autoStockTotal := Service.statusTotal
            (testRows.filter (fun r => r.productID == 3001)) s.id 101 .available +
            Service.statusTotal
              (testRows.filter (fun r => r.productID == 3001)) s.id 101 .reserved }) ∧
    ((Service.applyAutoStockCounts testRows 3001 testStockSKUs).1.map
        (fun s => s.autoStockAvailable)).sum =
      (((testRows.filter (fun r => r.productID == 3001)).filter
        (fun r => decide (r.status = Service.CardStatus.available))).map
          (fun r => r.total)).sum :=
  ⟨by decide,
   (stock_aggregation testRows 3001 testStockSKUs
      ⟨101, "default", 0, 0, 0, true, 0, 0, 0, 0⟩ (by decide) (by decide)
      (by decide) (by decide)).1,
   (stock_aggregation testRows 3001 testStockSKUs
      ⟨101, "default", 0, 0, 0, true, 0, 0, 0, 0⟩ (by decide) (by decide)
      (by decide) (by decide)).2.2.1⟩
